import Mathlib

/-!
# Order lifecycle and pricing-policy engine: a shallow embedding

This file embeds the order-management backend of `src/app.py` (a Flask
application) in Lean 4 and proves the behavioural claims of its
specification against the embedding.

Modelling conventions:
* Timestamps (`datetime` values) are natural numbers of seconds on the
  proleptic Gregorian calendar: a `datetime` with date ordinal `n`
  (as in Python `datetime.toordinal`, where 0001-01-01 has ordinal 1)
  and time-of-day `t` seconds is the natural number `n * 86400 + t`.
  Python compares `datetime` values lexicographically by (date, time),
  which coincides with `≤` on these numbers.
* Python `float` prices are modelled as rationals (`ℚ`); the discount
  factor `1 - 0.2` is the rational `1 - 1/5`.
* `datetime.utcnow()` is an explicit `now : Nat` argument.
* The ambient authenticated principal (`current_user`) is an explicit
  `role : String` argument, as the specification's design notes require.
* The SQLAlchemy session is a `DB` value threaded explicitly.  Each
  handler that can commit returns the resulting `DB` together with an
  `Except` outcome, so an aborted request shows its (lack of) side
  effects directly.  An uncaught Python exception (there is no
  try/except anywhere in the handlers) is modelled as `Err.internalError`,
  Flask's 500 response, distinct from the deliberate 400/403/404 aborts.
-/

namespace OrdersApp

/-- Python `float` prices, modelled as rationals. -/
abbrev Price := ℚ

/-- Row of the `product` table (`class Product` in `src/app.py`). -/
structure Product where
  id : Nat
  name : String
  price : Price
  created_at : Nat
deriving Repr, DecidableEq

/-- Row of the `order` table (`class Order` in `src/app.py`).
`bill_created_at` is nullable; `created_at` has column default
`datetime.utcnow`, applied at insert time. -/
structure Order where
  id : Nat
  product_id : Nat
  price : Price
  product_name : String
  bill_created_at : Option Nat
  created_at : Nat
  status : String
deriving Repr, DecidableEq

/-- The persistent store: the two tables the engine touches, plus the
autoincrement counter that assigns `Order.id` on insert. -/
structure DB where
  products : List Product
  orders : List Order
  nextOrderId : Nat
deriving Repr, DecidableEq

/-- Outcomes of a handler other than success: the deliberate aborts
(`abort(403)`, `abort(400)`, `abort(404)` / `'...', 404`) and the
uncaught-exception path (Flask 500). -/
inductive Err where
  | forbidden
  | invalidRequest
  | notFound
  | internalError
deriving Repr, DecidableEq

/-- `Product.query.filter_by(name=n).first()`. -/
def findProductByName (db : DB) (n : String) : Option Product :=
  db.products.find? (fun p => p.name == n)

/-- Resolution of the `product` relationship from a `product_id`
foreign key (`db.relationship('Product')` lookup by primary key). -/
def findProductById (db : DB) (i : Nat) : Option Product :=
  db.products.find? (fun p => p.id == i)

/-- `Order.query.filter_by(product_id=pid).first()`. -/
def findOrderByProductId (db : DB) (pid : Nat) : Option Order :=
  db.orders.find? (fun o => o.product_id == pid)

/-- `Order.query.get(oid)`. -/
def findOrderById (db : DB) (oid : Nat) : Option Order :=
  db.orders.find? (fun o => o.id == oid)

/-- The `Order.name` property: `self.product.name`, resolved through the
live relationship; `none` models the `AttributeError` raised when the
foreign key dangles. -/
def orderName (db : DB) (o : Order) : Option String :=
  (findProductById db o.product_id).map (fun p => p.name)

/-- Roles admitted by `add_order`:
`['cashier', 'sales assistant', 'accountant']`. -/
def addOrderRoles : List String := ["cashier", "sales assistant", "accountant"]

/-- The `order` dictionary returned by the `add_order` handler. -/
structure AddView where
  id : Nat
  product_name : String
  product_price : Price
  status : String
  created_at : Nat
deriving Repr, DecidableEq

/-- The `add_order` handler (`PUT /orders`, `src/app.py` lines 194-236).
Checks the caller's role, requires a non-empty `product_name`, looks the
product up by name, then either refreshes the price of the existing
order for that product (HTTP 200) or inserts a fresh order with status
`"received"` and `created_at = now` (HTTP 201).  The returned `Nat` is
the HTTP status code of the success response. -/
def add_order (role : String) (product_name : Option String) (now : Nat)
    (db : DB) : DB × Except Err (AddView × Nat) :=
  if role ∈ addOrderRoles then
    match product_name with
    | none => (db, .error .invalidRequest)
    | some pname =>
      if pname = "" then (db, .error .invalidRequest)
      else
        match findProductByName db pname with
        | none => (db, .error .notFound)
        | some product =>
          match findOrderByProductId db product.id with
          | some existing =>
            let db1 : DB := { db with
              orders := db.orders.map (fun o =>
                if o.id == existing.id then { o with price := product.price }
                else o) }
            (db1, .ok ({ id := existing.id, product_name := product.name,
                         product_price := product.price,
                         status := existing.status,
                         created_at := existing.created_at }, 200))
          | none =>
            let newOrder : Order :=
              { id := db.nextOrderId, product_id := product.id,
                price := product.price, product_name := product.name,
                bill_created_at := none, created_at := now,
                status := "received" }
            let db1 : DB :=
              { db with
                orders := db.orders ++ [newOrder]
                nextOrderId := db.nextOrderId + 1 }
            match orderName db1 newOrder with
            | none => (db1, .error .internalError)
            | some liveName =>
              (db1, .ok ({ id := newOrder.id, product_name := liveName,
                           product_price := newOrder.price,
                           status := newOrder.status,
                           created_at := newOrder.created_at }, 201))
  else (db, .error .forbidden)

/-- One step of `datetime.strptime(_, '%Y-%m-%d')`: split a character
list at every `'-'` separator. -/
def splitDash : List Char → List (List Char)
  | [] => [[]]
  | c :: cs =>
    if c = '-' then [] :: splitDash cs
    else
      match splitDash cs with
      | [] => [[c]]
      | g :: gs => (c :: g) :: gs

/-- Numeric value of a nonempty all-digit character group; `none` models
the `ValueError` raised when a `strptime` group fails to match. -/
def digitGroup? (cs : List Char) : Option Nat :=
  if cs ≠ [] ∧ cs.all (fun c => c.isDigit) then
    some (cs.foldl (fun acc c => acc * 10 + (c.toNat - 48)) 0)
  else none

/-- Gregorian leap-year test, as in Python `calendar.isleap`. -/
def isLeapYear (y : Nat) : Bool :=
  (y % 4 == 0 && y % 100 != 0) || y % 400 == 0

/-- Number of days in month `m` of year `y`. -/
def daysInMonth (y m : Nat) : Nat :=
  if m = 2 then (if isLeapYear y then 29 else 28)
  else if m = 4 ∨ m = 6 ∨ m = 9 ∨ m = 11 then 30
  else 31

/-- Days in the months of year `y` strictly before month `m`. -/
def daysBeforeMonth (y m : Nat) : Nat :=
  (List.range (m - 1)).foldl (fun acc i => acc + daysInMonth y (i + 1)) 0

/-- Proleptic Gregorian ordinal of the date `y-m-d`, as in Python
`datetime.toordinal` (0001-01-01 has ordinal 1). -/
def toOrdinal (y m d : Nat) : Nat :=
  365 * (y - 1) + (y - 1) / 4 + (y - 1) / 400 - (y - 1) / 100
    + daysBeforeMonth y m + d

/-- `datetime.strptime(s, '%Y-%m-%d')`, returning the timestamp (in
seconds) of midnight on the parsed date, or `none` for the `ValueError`
on a malformed string: `%Y` demands exactly four digits, `%m` and `%d`
one or two digits in range, the three groups are separated by literal
`'-'` characters with nothing left over, and the day must exist in the
month (`datetime` validates it) with year at least `MINYEAR = 1`. -/
def parseDate (s : String) : Option Nat :=
  match splitDash s.data with
  | [ys, ms, ds] =>
    match digitGroup? ys, digitGroup? ms, digitGroup? ds with
    | some y, some m, some d =>
      if ys.length = 4 ∧ (ms.length = 1 ∨ ms.length = 2)
          ∧ (ds.length = 1 ∨ ds.length = 2)
          ∧ 1 ≤ y ∧ 1 ≤ m ∧ m ≤ 12 ∧ 1 ≤ d ∧ d ≤ daysInMonth y m then
        some (toOrdinal y m d * 86400)
      else none
    | _, _, _ => none
  | _ => none

/-- Python truthiness of an optional query parameter:
`request.args.get` yields `None` when absent, and the empty string is
falsy, so `if start_date_str and end_date_str:` runs the filter only
when both are present and non-empty. -/
def strTruthy : Option String → Bool
  | none => false
  | some s => s ≠ ""

/-- One element of the `orders` list returned by the `get_orders`
handler (keys `id`, `name`, `price`, `status`, `created at`,
`bill created at`). -/
structure ListView where
  id : Nat
  name : String
  price : Price
  status : String
  created_at : Nat
  bill_created_at : Option Nat
deriving Repr, DecidableEq

/-- The dictionary built for one order inside the `get_orders` loop;
`none` models the `AttributeError` when `order.name` cannot resolve its
product. -/
def listViewOf (db : DB) (o : Order) : Option ListView :=
  (orderName db o).map (fun n =>
    { id := o.id, name := n, price := o.price, status := o.status,
      created_at := o.created_at, bill_created_at := o.bill_created_at })

/-- The response-building loop of `get_orders`: one view per order, in
store order, aborting on the first unresolvable product. -/
def renderOrders (db : DB) : List Order → Option (List ListView)
  | [] => some []
  | o :: os =>
    match listViewOf db o with
    | none => none
    | some v => (renderOrders db os).map (fun vs => v :: vs)

/-- The `get_orders` handler (`GET /orders`, `src/app.py` lines 241-305).
Only the `accountant` role may call it.  When both `start_date` and
`end_date` are present and non-empty they are parsed with
`datetime.strptime(_, '%Y-%m-%d')` — with **no** `try`/`except`, so a
parse failure propagates as an uncaught `ValueError`
(`Err.internalError`) — and the query is filtered with
`Order.created_at.between(start, end)`, SQL `BETWEEN`, inclusive at
both datetime endpoints.  Otherwise all orders are returned. -/
def get_orders (role : String) (start_s end_s : Option String) (db : DB) :
    Except Err (List ListView) :=
  if role ∈ ["accountant"] then
    if strTruthy start_s && strTruthy end_s then
      match parseDate (start_s.getD "") with
      | none => .error .internalError
      | some startTs =>
        match parseDate (end_s.getD "") with
        | none => .error .internalError
        | some endTs =>
          match renderOrders db (db.orders.filter (fun o =>
              decide (startTs ≤ o.created_at ∧ o.created_at ≤ endTs))) with
          | none => .error .internalError
          | some views => .ok views
    else
      match renderOrders db db.orders with
      | none => .error .internalError
      | some views => .ok views
  else .error .forbidden

/-- `delta.days` for `delta = now - created` (Python `timedelta.days`
floors, so this is a floor division over `ℤ`). -/
def deltaDays (now created : Nat) : Int :=
  Int.fdiv ((now : Int) - (created : Int)) 86400

/-- The result dictionary of the `get_order` handler. -/
structure GetView where
  id : Nat
  name : String
  status : String
  price : Price
  created_at : Nat
deriving Repr, DecidableEq

/-- The `get_order` handler (`GET /orders/<id>`, `src/app.py` lines
339-374).  Roles `sales assistant` and `accountant` only; 404 when the
order is absent; if `delta.days > 30` the returned price is
`order.price * (1 - 0.2)`, otherwise the stored price.  The handler
performs no write, so it never touches the `DB`. -/
def get_order (role : String) (order_id : Nat) (now : Nat) (db : DB) :
    Except Err GetView :=
  if role ∈ ["sales assistant", "accountant"] then
    match findOrderById db order_id with
    | none => .error .notFound
    | some order =>
      match orderName db order with
      | none => .error .internalError
      | some n =>
        if deltaDays now order.created_at > 30 then
          .ok { id := order.id, name := n, status := order.status,
                price := order.price * (1 - (1 : ℚ)/5),
                created_at := order.created_at }
        else
          .ok { id := order.id, name := n, status := order.status,
                price := order.price, created_at := order.created_at }
  else .error .forbidden

/-- The result dictionary of the `update_order` handler. -/
structure UpdView where
  id : Nat
  product_id : Nat
  product_name : String
  price : Price
  status : String
  created_at : Nat
deriving Repr, DecidableEq

/-- The `update_order` handler (`PUT /orders/<id>`, `src/app.py` lines
419-444).  No role check at all (only `@login_required`): the `role`
argument is never consulted.  404 when the order is absent, then 400
when the supplied status is missing or empty, otherwise the free-form
status string is stored unconditionally. -/
def update_order (role : String) (order_id : Nat) (new_status : Option String)
    (db : DB) : DB × Except Err UpdView :=
  match findOrderById db order_id with
  | none => (db, .error .notFound)
  | some order =>
    match new_status with
    | none => (db, .error .invalidRequest)
    | some s =>
      if s = "" then (db, .error .invalidRequest)
      else
        ({ db with
           orders := db.orders.map (fun o =>
             if o.id == order.id then { o with status := s } else o) },
         .ok { id := order.id, product_id := order.product_id,
               product_name := order.product_name, price := order.price,
               status := s, created_at := order.created_at })

/-- The `order` dictionary returned by the `bill_created` handler. -/
structure BillView where
  id : Nat
  name : String
  price : Price
  status : String
  created_at : Nat
  bill_created_at : Option Nat
deriving Repr, DecidableEq

/-- The `bill_created` handler (`PUT /bill/<id>`, `src/app.py` lines
491-514).  Roles `accountant` and `cashier` only; 404 when the order is
absent; otherwise `bill_created_at` is set to `now` **unconditionally**
(no guard on a previously set value) and committed, and the response
echoes the updated order with its name resolved through the live
product relationship.  The name resolution happens after the commit, so
its (unreachable while foreign keys are intact) failure would still
leave the write in place. -/
def bill_created (role : String) (order_id : Nat) (now : Nat) (db : DB) :
    DB × Except Err BillView :=
  if role ∈ ["accountant", "cashier"] then
    match findOrderById db order_id with
    | none => (db, .error .notFound)
    | some order =>
      let db1 : DB := { db with
        orders := db.orders.map (fun o =>
          if o.id == order.id then { o with bill_created_at := some now }
          else o) }
      match orderName db1 order with
      | none => (db1, .error .internalError)
      | some n =>
        (db1, .ok { id := order.id, name := n, price := order.price,
                    status := order.status, created_at := order.created_at,
                    bill_created_at := some now })
  else (db, .error .forbidden)

/-- One request against the engine, with its explicit caller role and
clock reading. -/
inductive Op where
  | addOrder (role : String) (product_name : Option String) (now : Nat)
  | getOrders (role : String) (start_s end_s : Option String)
  | getOrder (role : String) (order_id : Nat) (now : Nat)
  | updateOrder (role : String) (order_id : Nat) (new_status : Option String)
  | billCreated (role : String) (order_id : Nat) (now : Nat)

/-- The store state after one request: the two `GET` handlers never
write, the three mutating handlers thread the `DB` they return. -/
def applyOp (op : Op) (db : DB) : DB :=
  match op with
  | .addOrder r p n => (add_order r p n db).1
  | .getOrders _ _ _ => db
  | .getOrder _ _ _ => db
  | .updateOrder r i s => (update_order r i s db).1
  | .billCreated r i n => (bill_created r i n db).1

/-- The at-most-one-live-order-per-product invariant: no two order rows
share a `product_id`. -/
def OnePerProduct (db : DB) : Prop :=
  db.orders.Pairwise (fun a b => a.product_id ≠ b.product_id)

instance {ε α : Type} [DecidableEq ε] [DecidableEq α] : DecidableEq (Except ε α)
  | .error e, .error f =>
    if h : e = f then .isTrue (by rw [h]) else .isFalse (by simp [h])
  | .error _, .ok _ => .isFalse (by simp)
  | .ok _, .error _ => .isFalse (by simp)
  | .ok a, .ok b =>
    if h : a = b then .isTrue (by rw [h]) else .isFalse (by simp [h])

instance (db : DB) : Decidable (OnePerProduct db) :=
  inferInstanceAs (Decidable (db.orders.Pairwise _))

/-- Mapping a `product_id`-preserving update over the order table keeps
the per-product uniqueness of the rows. -/
lemma pairwise_pid_map (l : List Order) (f : Order → Order)
    (hf : ∀ o, (f o).product_id = o.product_id)
    (h : l.Pairwise fun a b => a.product_id ≠ b.product_id) :
    (l.map f).Pairwise fun a b => a.product_id ≠ b.product_id := by
  rw [List.pairwise_map]
  exact h.imp fun {a b} hab => by rw [hf a, hf b]; exact hab

/-- When every order in `l` can resolve its product, `renderOrders`
succeeds and produces one view per order, related elementwise. -/
lemma renderOrders_total (db : DB) (l : List Order)
    (h : ∀ o ∈ l, (listViewOf db o).isSome) :
    ∃ vs, renderOrders db l = some vs ∧ vs.length = l.length ∧
      (∀ v ∈ vs, ∃ o ∈ l, listViewOf db o = some v) ∧
      (∀ o ∈ l, ∃ v ∈ vs, listViewOf db o = some v) := by
  induction l with
  | nil => exact ⟨[], rfl, rfl, by simp, by simp⟩
  | cons o os ih =>
    obtain ⟨vs, hvs, hlen, hmem, hcov⟩ := ih (fun x hx => h x (by simp [hx]))
    have ho : (listViewOf db o).isSome := h o (by simp)
    obtain ⟨v, hv⟩ := Option.isSome_iff_exists.mp ho
    refine ⟨v :: vs, ?_, by simp [hlen], ?_, ?_⟩
    · simp [renderOrders, hv, hvs]
    · intro w hw
      rcases List.mem_cons.mp hw with hw | hw
      · exact ⟨o, by simp, hw ▸ hv⟩
      · obtain ⟨o2, ho2, hvo2⟩ := hmem w hw
        exact ⟨o2, by simp [ho2], hvo2⟩
    · intro o2 ho2
      rcases List.mem_cons.mp ho2 with rfl | ho2
      · exact ⟨v, by simp, hv⟩
      · obtain ⟨w, hwmem, hw⟩ := hcov o2 ho2
        exact ⟨w, by simp [hwmem], hw⟩

/-- Every view produced by `renderOrders` comes from some order of the
rendered list. -/
lemma renderOrders_mem (db : DB) (l : List Order) (vs : List ListView)
    (hvs : renderOrders db l = some vs) :
    ∀ v ∈ vs, ∃ o ∈ l, listViewOf db o = some v := by
  induction l generalizing vs with
  | nil =>
    simp only [renderOrders, Option.some.injEq] at hvs
    subst hvs; simp
  | cons o os ih =>
    simp only [renderOrders] at hvs
    cases hlv : listViewOf db o with
    | none => rw [hlv] at hvs; cases hvs
    | some v0 =>
      rw [hlv] at hvs
      cases hro : renderOrders db os with
      | none => rw [hro] at hvs; cases hvs
      | some vs0 =>
        rw [hro] at hvs
        have hvv : v0 :: vs0 = vs := by simpa using hvs
        subst hvv
        intro v hv
        rcases List.mem_cons.mp hv with rfl | hv
        · exact ⟨o, by simp, hlv⟩
        · obtain ⟨o2, ho2, h2⟩ := ih vs0 hro v hv
          exact ⟨o2, by simp [ho2], h2⟩

/-! ## Sample data for concrete instantiations -/

/-- Sample product: id 1, current name `"Widget"`, current price 10. -/
def pW1 : Product := { id := 1, name := "Widget", price := 10, created_at := 0 }

/-- Sample order against `pW1`, with a stale snapshot name and price, a
bill timestamp already set, and created at second 1000. -/
def oW1 : Order :=
  { id := 5, product_id := 1, price := 7, product_name := "OldName",
    bill_created_at := some 55, created_at := 1000, status := "received" }

/-- Sample store with one product and one existing order for it. -/
def dbW1 : DB := { products := [pW1], orders := [oW1], nextOrderId := 6 }

/-- Sample store with one product and no orders. -/
def dbW2 : DB := { products := [pW1], orders := [], nextOrderId := 1 }

/-! ## Claims about order creation (`add_order`) -/

/-- C1: when an order already exists for the product named `pname`,
`add_order` (the engine's create-or-refresh operation) updates exactly
that order's `price` to the product's current price — every row keeps
its `id`, `status`, `created_at` and `product_name`, as the
`{ x with price := _ }` update shows — no row is inserted
(the table is a `map` of the old one, so the length is unchanged), and
the existing order is returned as an "updated" (HTTP 200) result. -/
theorem addOrder_refreshes_existing_order (role pname : String) (now : Nat)
    (db : DB) (p : Product) (o : Order)
    (hrole : role ∈ addOrderRoles)
    (hname : pname ≠ "")
    (hp : findProductByName db pname = some p)
    (ho : findOrderByProductId db p.id = some o) :
    add_order role (some pname) now db =
      ({ db with orders := db.orders.map (fun x =>
           if x.id == o.id then { x with price := p.price } else x) },
       .ok ({ id := o.id, product_name := p.name, product_price := p.price,
              status := o.status, created_at := o.created_at }, 200)) ∧
    (add_order role (some pname) now db).1.orders.length = db.orders.length ∧
    ∀ i : Nat, ((add_order role (some pname) now db).1.orders[i]?) =
      (db.orders[i]?).map (fun x =>
        if x.id = o.id then { x with price := p.price } else x) := by
  have hmain : add_order role (some pname) now db =
      ({ db with orders := db.orders.map (fun x =>
           if x.id == o.id then { x with price := p.price } else x) },
       .ok ({ id := o.id, product_name := p.name, product_price := p.price,
              status := o.status, created_at := o.created_at }, 200)) := by
    unfold add_order
    rw [if_pos hrole]
    simp [hp, ho, hname]
  refine ⟨hmain, by rw [hmain]; simp, fun i => by rw [hmain]; simp⟩

/-- Witness for C1 at a concrete store: refreshing the existing order of
`"Widget"` updates its price in place and returns it with code 200. -/
theorem addOrder_refreshes_existing_order_witness :
    ("cashier" ∈ addOrderRoles) ∧ ("Widget" ≠ "") ∧
    findProductByName dbW1 "Widget" = some pW1 ∧
    findOrderByProductId dbW1 pW1.id = some oW1 ∧
    (add_order "cashier" (some "Widget") 2000 dbW1 =
      ({ dbW1 with orders := dbW1.orders.map (fun x =>
           if x.id == oW1.id then { x with price := pW1.price } else x) },
       .ok ({ id := oW1.id, product_name := pW1.name,
              product_price := pW1.price, status := oW1.status,
              created_at := oW1.created_at }, 200)) ∧
    (add_order "cashier" (some "Widget") 2000 dbW1).1.orders.length
        = dbW1.orders.length ∧
    ∀ i : Nat, ((add_order "cashier" (some "Widget") 2000 dbW1).1.orders[i]?) =
      (dbW1.orders[i]?).map (fun x =>
        if x.id = oW1.id then { x with price := pW1.price } else x)) :=
  ⟨by decide, by decide, by decide, by decide,
   addOrder_refreshes_existing_order "cashier" "Widget" 2000 dbW1 pW1 oW1
     (by decide) (by decide) (by decide) (by decide)⟩

/-- C2: when no order exists for the product named `pname`, `add_order`
appends exactly one new order row: its `id` is the next autoincrement
value, its `status` is `"received"`, its `price` is the product's price
at call time, its `product_id` and `product_name` are snapshots of the
product's id and name, and its `created_at` is the current time (the
column default `datetime.utcnow`); the response reports it with HTTP
201.  The injectivity hypothesis `hpid` (product ids are keys) pins the
live name lookup performed for the response body. -/
theorem addOrder_creates_new_order (role pname : String) (now : Nat)
    (db : DB) (p : Product)
    (hrole : role ∈ addOrderRoles)
    (hname : pname ≠ "")
    (hp : findProductByName db pname = some p)
    (hno : findOrderByProductId db p.id = none)
    (hpid : ∀ q ∈ db.products, q.id = p.id → q = p) :
    add_order role (some pname) now db =
      ({ db with
         orders := db.orders ++
           [{ id := db.nextOrderId
              product_id := p.id
              price := p.price
              product_name := p.name
              bill_created_at := none
              created_at := now
              status := "received" }]
         nextOrderId := db.nextOrderId + 1 },
       .ok ({ id := db.nextOrderId, product_name := p.name,
              product_price := p.price, status := "received",
              created_at := now }, 201)) := by
  have hpmem : p ∈ db.products := List.mem_of_find?_eq_some hp
  have hq0 : ∃ q, db.products.find? (fun x => x.id == p.id) = some q := by
    rw [← Option.isSome_iff_exists, List.find?_isSome]
    exact ⟨p, hpmem, by simp⟩
  obtain ⟨q, hq⟩ := hq0
  have hqp : q = p := by
    have hqmem : q ∈ db.products := List.mem_of_find?_eq_some hq
    have hqid := List.find?_some hq
    simp only [beq_iff_eq] at hqid
    exact hpid q hqmem hqid
  subst hqp
  unfold add_order
  rw [if_pos hrole]
  simp [hp, hno, hname, orderName, findProductById, hq]

/-- Witness for C2 at a concrete store with no order yet: ordering
`"Widget"` inserts one row with status `"received"`, the current price
10, snapshots of the product's id and name, and `created_at = 777`. -/
theorem addOrder_creates_new_order_witness :
    ("accountant" ∈ addOrderRoles) ∧ ("Widget" ≠ "") ∧
    findProductByName dbW2 "Widget" = some pW1 ∧
    findOrderByProductId dbW2 pW1.id = none ∧
    (∀ q ∈ dbW2.products, q.id = pW1.id → q = pW1) ∧
    add_order "accountant" (some "Widget") 777 dbW2 =
      ({ dbW2 with
         orders := dbW2.orders ++
           [{ id := dbW2.nextOrderId
              product_id := pW1.id
              price := pW1.price
              product_name := pW1.name
              bill_created_at := none
              created_at := 777
              status := "received" }]
         nextOrderId := dbW2.nextOrderId + 1 },
       .ok ({ id := dbW2.nextOrderId, product_name := pW1.name,
              product_price := pW1.price, status := "received",
              created_at := 777 }, 201)) :=
  ⟨by decide, by decide, by decide, by decide, by decide,
   addOrder_creates_new_order "accountant" "Widget" 777 dbW2 pW1
     (by decide) (by decide) (by decide) (by decide) (by decide)⟩

/-- C6: for a caller whose role is permitted, `add_order` aborts with
`InvalidRequest` (HTTP 400) when the product name is absent or empty,
and with `NotFound` (HTTP 404) when no product carries the supplied
name; in both cases the returned store is the unchanged input store, so
no order row is created or modified. -/
theorem addOrder_rejects_bad_input (role : String) (pname? : Option String)
    (now : Nat) (db : DB)
    (hrole : role ∈ addOrderRoles) :
    ((pname? = none ∨ pname? = some "") →
       add_order role pname? now db = (db, .error .invalidRequest)) ∧
    (∀ s, pname? = some s → s ≠ "" → findProductByName db s = none →
       add_order role pname? now db = (db, .error .notFound)) := by
  constructor
  · rintro (rfl | rfl)
    · unfold add_order; rw [if_pos hrole]
    · unfold add_order; rw [if_pos hrole]; simp
  · rintro s rfl hs hfind
    unfold add_order
    rw [if_pos hrole]
    simp [hs, hfind]

/-- Witness for C6: with a permitted caller, a missing product name is a
400 with no store change, and an unknown product name is a 404 with no
store change. -/
theorem addOrder_rejects_bad_input_witness :
    ("sales assistant" ∈ addOrderRoles) ∧
    (((none : Option String) = none ∨ (none : Option String) = some "") →
       add_order "sales assistant" none 0 dbW1 =
         (dbW1, .error .invalidRequest)) ∧
    (∀ s, (none : Option String) = some s → s ≠ "" →
       findProductByName dbW1 s = none →
       add_order "sales assistant" none 0 dbW1 = (dbW1, .error .notFound)) :=
  ⟨by decide,
   (addOrder_rejects_bad_input "sales assistant" none 0 dbW1 (by decide)).1,
   (addOrder_rejects_bad_input "sales assistant" none 0 dbW1 (by decide)).2⟩

/-! ## Claims about the discount projection (`get_order`) -/

/-- C3: for a stored order, `get_order` returns the stored price times
`1 - 0.2` exactly when the order's age `now - created_at` exceeds 30
days at day granularity (`delta.days > 30`, Python's flooring
`timedelta.days`), and the stored price itself otherwise; in particular
at an age of exactly 30 days (to the second) no discount is applied.
The read never touches the store: `applyOp` of this request is the
identity, so the stored price is not mutated. -/
theorem getOrder_age_discount (role : String) (oid now : Nat) (db : DB)
    (o : Order) (n : String)
    (hrole : role ∈ ["sales assistant", "accountant"])
    (ho : findOrderById db oid = some o)
    (hn : orderName db o = some n) :
    (deltaDays now o.created_at > 30 →
      get_order role oid now db =
        .ok { id := o.id, name := n, status := o.status,
              price := o.price * (1 - (1 : ℚ)/5), created_at := o.created_at }) ∧
    (deltaDays now o.created_at ≤ 30 →
      get_order role oid now db =
        .ok { id := o.id, name := n, status := o.status,
              price := o.price, created_at := o.created_at }) ∧
    ((now : Int) - (o.created_at : Int) = 30 * 86400 →
      get_order role oid now db =
        .ok { id := o.id, name := n, status := o.status,
              price := o.price, created_at := o.created_at }) ∧
    applyOp (.getOrder role oid now) db = db := by
  refine ⟨?_, ?_, ?_, rfl⟩
  · intro hd
    unfold get_order
    rw [if_pos hrole]
    simp [ho, hn, hd]
  · intro hd
    unfold get_order
    rw [if_pos hrole]
    simp [ho, hn, not_lt.mpr hd]
  · intro hd
    have hdd : deltaDays now o.created_at = 30 := by
      unfold deltaDays
      rw [hd]
      decide
    unfold get_order
    rw [if_pos hrole]
    simp [ho, hn, hdd]

/-- Witness for C3: reading the sample order 31 days after its creation
applies the 20% discount view without modifying the store. -/
theorem getOrder_age_discount_witness :
    ("accountant" ∈ ["sales assistant", "accountant"]) ∧
    findOrderById dbW1 5 = some oW1 ∧
    orderName dbW1 oW1 = some "Widget" ∧
    ((deltaDays (1000 + 31*86400) oW1.created_at > 30 →
      get_order "accountant" 5 (1000 + 31*86400) dbW1 =
        .ok { id := oW1.id, name := "Widget", status := oW1.status,
              price := oW1.price * (1 - (1 : ℚ)/5),
              created_at := oW1.created_at }) ∧
    (deltaDays (1000 + 31*86400) oW1.created_at ≤ 30 →
      get_order "accountant" 5 (1000 + 31*86400) dbW1 =
        .ok { id := oW1.id, name := "Widget", status := oW1.status,
              price := oW1.price, created_at := oW1.created_at }) ∧
    (((1000 + 31*86400 : Nat) : Int) - (oW1.created_at : Int) = 30 * 86400 →
      get_order "accountant" 5 (1000 + 31*86400) dbW1 =
        .ok { id := oW1.id, name := "Widget", status := oW1.status,
              price := oW1.price, created_at := oW1.created_at }) ∧
    applyOp (.getOrder "accountant" 5 (1000 + 31*86400)) dbW1 = dbW1) :=
  ⟨by decide, by decide, by decide,
   getOrder_age_discount "accountant" 5 (1000 + 31*86400) dbW1 oW1 "Widget"
     (by decide) (by decide) (by decide)⟩

/-! ## The per-product uniqueness invariant -/

/-- C7: starting from a store in which each `product_id` has at most one
order row, every engine request — create-or-refresh, list, read, status
update, billing — preserves that invariant: refreshes, status updates
and billing only `map` field updates that keep `product_id`, inserts
happen only after `Order.query.filter_by(product_id=...)` came back
empty, and reads do not write. -/
theorem engine_preserves_one_order_per_product (op : Op) (db : DB)
    (h : OnePerProduct db) : OnePerProduct (applyOp op db) := by
  have hmap : ∀ (target : Order) (f : Order → Order),
      (∀ o, (f o).product_id = o.product_id) →
      OnePerProduct { db with orders := db.orders.map f } := by
    intro _ f hf
    exact pairwise_pid_map _ _ hf h
  cases op with
  | getOrders r s e => exact h
  | getOrder r i n => exact h
  | updateOrder r i s =>
    simp only [applyOp]
    cases hfo : findOrderById db i with
    | none => simp [update_order, hfo]; exact h
    | some order =>
      cases s with
      | none => simp [update_order, hfo]; exact h
      | some st =>
        by_cases he : st = ""
        · simp [update_order, hfo, he]; exact h
        · simp only [update_order, hfo, if_neg he]
          exact hmap order _ (fun o => by split <;> rfl)
  | billCreated r i n =>
    simp only [applyOp]
    by_cases hr : r ∈ ["accountant", "cashier"]
    · cases hfo : findOrderById db i with
      | none => simp [bill_created, hr, hfo]; exact h
      | some order =>
        simp only [bill_created, if_pos hr, hfo]
        split
        · exact hmap order _ (fun o => by split <;> rfl)
        · exact hmap order _ (fun o => by split <;> rfl)
    · simp [bill_created, hr]; exact h
  | addOrder r pn n =>
    simp only [applyOp]
    by_cases hr : r ∈ addOrderRoles
    · cases pn with
      | none => simp [add_order, hr]; exact h
      | some pname =>
        by_cases he : pname = ""
        · simp [add_order, hr, he]; exact h
        · cases hfp : findProductByName db pname with
          | none => simp [add_order, hr, he, hfp]; exact h
          | some product =>
            cases hfo : findOrderByProductId db product.id with
            | some existing =>
              simp only [add_order, if_pos hr, if_neg he, hfp, hfo]
              exact hmap existing _ (fun o => by split <;> rfl)
            | none =>
              have happ : (db.orders ++
                  [({ id := db.nextOrderId, product_id := product.id,
                      price := product.price, product_name := product.name,
                      bill_created_at := none, created_at := n,
                      status := "received" } : Order)]).Pairwise
                    (fun a b => a.product_id ≠ b.product_id) := by
                rw [List.pairwise_append]
                refine ⟨h, List.pairwise_singleton _ _, ?_⟩
                intro a ha b hb
                simp only [List.mem_singleton] at hb
                subst hb
                have hnone := List.find?_eq_none.mp hfo a ha
                simpa using hnone
              simp only [add_order, if_pos hr, if_neg he, hfp, hfo]
              split
              · exact happ
              · exact happ
    · simp [add_order, hr]; exact h

/-- Witness for C7: the sample store satisfies the invariant and still
does after a create-or-refresh request. -/
theorem engine_preserves_one_order_per_product_witness :
    OnePerProduct dbW1 ∧
    OnePerProduct (applyOp (.addOrder "cashier" (some "Widget") 0) dbW1) :=
  ⟨by decide,
   engine_preserves_one_order_per_product
     (.addOrder "cashier" (some "Widget") 0) dbW1 (by decide)⟩

/-! ## Claims about order listing (`get_orders`) -/

/-- Sample order created at noon on 2024-01-31, the end day of the
queried range. -/
def oC4 : Order :=
  { id := 9, product_id := 1, price := 5, product_name := "Widget",
    bill_created_at := none,
    created_at := toOrdinal 2024 1 31 * 86400 + 43200, status := "received" }

def dbC4 : DB := { products := [pW1], orders := [oC4], nextOrderId := 10 }

/-- Counterexample to C4 as stated: the end date `2024-01-31` parses to
midnight of that day, the sample order was created on that same
calendar day (same date ordinal) at noon, yet the listing for the
inclusive day range `[2024-01-01, 2024-01-31]` excludes it and comes
back empty: `between` compares full datetimes against midnight of the
end day, not day-granularity calendar dates. -/
theorem getOrders_end_day_excluded_cex :
    parseDate "2024-01-31" = some (toOrdinal 2024 1 31 * 86400) ∧
    oC4.created_at / 86400 = toOrdinal 2024 1 31 ∧
    get_orders "accountant" (some "2024-01-01") (some "2024-01-31") dbC4 =
      .ok [] := by decide

/-- C4 (amended): when both bounds parse, the listing contains exactly
the orders whose `created_at` lies in the datetime-inclusive interval
from midnight of the start day to midnight of the end day; an order
created on the end day strictly after midnight falls outside the
interval and is excluded. -/
theorem getOrders_between_midnights (role ss es : String) (sTs eTs : Nat)
    (db : DB)
    (hrole : role ∈ ["accountant"])
    (hss : ss ≠ "") (hes : es ≠ "")
    (hs : parseDate ss = some sTs) (he : parseDate es = some eTs)
    (hall : ∀ o ∈ db.orders, (listViewOf db o).isSome) :
    ∃ views, get_orders role (some ss) (some es) db = .ok views ∧
      views.length = (db.orders.filter (fun o =>
        decide (sTs ≤ o.created_at ∧ o.created_at ≤ eTs))).length ∧
      (∀ v ∈ views, ∃ o ∈ db.orders,
        sTs ≤ o.created_at ∧ o.created_at ≤ eTs ∧ listViewOf db o = some v) ∧
      (∀ o ∈ db.orders, sTs ≤ o.created_at → o.created_at ≤ eTs →
        ∃ v ∈ views, listViewOf db o = some v) := by
  have hallf : ∀ o ∈ db.orders.filter (fun o =>
      decide (sTs ≤ o.created_at ∧ o.created_at ≤ eTs)),
      (listViewOf db o).isSome :=
    fun o hof => hall o (List.mem_of_mem_filter hof)
  obtain ⟨vs, hvs, hlen, hmem, hcov⟩ := renderOrders_total db _ hallf
  have ht : (strTruthy (some ss) && strTruthy (some es)) = true := by
    simp [strTruthy, hss, hes]
  refine ⟨vs, ?_, hlen, ?_, ?_⟩
  · unfold get_orders
    rw [if_pos hrole, if_pos ht]
    simp only [Option.getD_some]
    rw [hs, he]
    simp only [hvs]
  · intro v hv
    obtain ⟨o, hof, hlvo⟩ := hmem v hv
    have homem := List.mem_of_mem_filter hof
    have hcond : sTs ≤ o.created_at ∧ o.created_at ≤ eTs := by
      have hdec := List.of_mem_filter hof
      simpa using hdec
    exact ⟨o, homem, hcond.1, hcond.2, hlvo⟩
  · intro o ho hs1 hs2
    exact hcov o (List.mem_filter.mpr ⟨ho, by simp [hs1, hs2]⟩)

/-- Sample order created one hour into 2024-01-15, inside the sample
query range. -/
def oC4b : Order :=
  { id := 11, product_id := 1, price := 5, product_name := "Widget",
    bill_created_at := none,
    created_at := toOrdinal 2024 1 15 * 86400 + 3600, status := "received" }

/-- Sample store holding one order inside and one outside the
`[2024-01-01 00:00, 2024-01-31 00:00]` interval. -/
def dbC4b : DB := { products := [pW1], orders := [oC4, oC4b], nextOrderId := 12 }

/-- Witness for the amended C4 on a concrete store: the range query
keeps exactly the orders between the two midnights. -/
theorem getOrders_between_midnights_witness :
    ("accountant" ∈ ["accountant"]) ∧
    ("2024-01-01" ≠ "") ∧ ("2024-01-31" ≠ "") ∧
    parseDate "2024-01-01" = some (toOrdinal 2024 1 1 * 86400) ∧
    parseDate "2024-01-31" = some (toOrdinal 2024 1 31 * 86400) ∧
    (∀ o ∈ dbC4b.orders, (listViewOf dbC4b o).isSome) ∧
    (∃ views, get_orders "accountant" (some "2024-01-01") (some "2024-01-31")
        dbC4b = .ok views ∧
      views.length = (dbC4b.orders.filter (fun o =>
        decide (toOrdinal 2024 1 1 * 86400 ≤ o.created_at ∧
          o.created_at ≤ toOrdinal 2024 1 31 * 86400))).length ∧
      (∀ v ∈ views, ∃ o ∈ dbC4b.orders,
        toOrdinal 2024 1 1 * 86400 ≤ o.created_at ∧
        o.created_at ≤ toOrdinal 2024 1 31 * 86400 ∧
        listViewOf dbC4b o = some v) ∧
      (∀ o ∈ dbC4b.orders, toOrdinal 2024 1 1 * 86400 ≤ o.created_at →
        o.created_at ≤ toOrdinal 2024 1 31 * 86400 →
        ∃ v ∈ views, listViewOf dbC4b o = some v)) :=
  ⟨by decide, by decide, by decide, by decide, by decide, by decide,
   getOrders_between_midnights "accountant" "2024-01-01" "2024-01-31"
     (toOrdinal 2024 1 1 * 86400) (toOrdinal 2024 1 31 * 86400) dbC4b
     (by decide) (by decide) (by decide) (by decide) (by decide) (by decide)⟩

/-- Counterexample to C5 as stated: a malformed start date does not
produce `InvalidRequest` (HTTP 400); the `ValueError` from `strptime`
escapes uncaught (HTTP 500), modelled as `internalError`. -/
theorem getOrders_malformed_date_cex :
    get_orders "accountant" (some "2024-13-99") (some "2024-01-31") dbC4 =
      .error .internalError ∧
    get_orders "accountant" (some "2024-13-99") (some "2024-01-31") dbC4 ≠
      .error .invalidRequest := by decide

/-- C5 (amended): when both dates are supplied non-empty and either one
fails to parse as `YYYY-MM-DD`, `get_orders` fails with the uncaught
`ValueError` (internal server error), not with `InvalidRequest`: the
handler wraps `strptime` in no `try`/`except`. -/
theorem getOrders_parse_failure_internal (role ss es : String) (db : DB)
    (hrole : role ∈ ["accountant"]) (hss : ss ≠ "") (hes : es ≠ "")
    (hfail : parseDate ss = none ∨ parseDate es = none) :
    get_orders role (some ss) (some es) db = .error .internalError := by
  unfold get_orders
  have ht : (strTruthy (some ss) && strTruthy (some es)) = true := by
    simp [strTruthy, hss, hes]
  rw [if_pos hrole, if_pos ht]
  simp only [Option.getD_some]
  rcases hfail with hf | hf
  · rw [hf]
  · cases hps : parseDate ss with
    | none => rfl
    | some t => rw [hf]

/-- Witness for the amended C5: a malformed start date makes the
listing fail with the uncaught-exception outcome. -/
theorem getOrders_parse_failure_internal_witness :
    ("accountant" ∈ ["accountant"]) ∧ ("oops" ≠ "") ∧ ("2024-01-31" ≠ "") ∧
    (parseDate "oops" = none ∨ parseDate "2024-01-31" = none) ∧
    get_orders "accountant" (some "oops") (some "2024-01-31") dbW1 =
      .error .internalError :=
  ⟨by decide, by decide, by decide, Or.inl (by decide),
   getOrders_parse_failure_internal "accountant" "oops" "2024-01-31" dbW1
     (by decide) (by decide) (by decide) (Or.inl (by decide))⟩

/-! ## Claims about billing, status updates, and live name resolution -/

/-- Changing only the `orders` table leaves the product-relationship
lookup untouched. -/
lemma orderName_set_orders (db : DB) (os : List Order) (o : Order) :
    orderName { db with orders := os } o = orderName db o := rfl

/-- C8: `bill_created` rejects any role outside accountant/cashier with
`Forbidden` and a missing order with `NotFound` (store unchanged in
both cases); for an existing order it sets `bill_created_at := some
now` through an update that never inspects the previous value — so a
repeated call simply overwrites the earlier timestamp with its own
`now`. -/
theorem createBill_unconditional_overwrite (role : String) (oid now : Nat)
    (db : DB) :
    (role ∉ ["accountant", "cashier"] →
       bill_created role oid now db = (db, .error .forbidden)) ∧
    (role ∈ ["accountant", "cashier"] → findOrderById db oid = none →
       bill_created role oid now db = (db, .error .notFound)) ∧
    (∀ o n2, role ∈ ["accountant", "cashier"] →
       findOrderById db oid = some o → orderName db o = some n2 →
       bill_created role oid now db =
         ({ db with orders := db.orders.map (fun x =>
              if x.id == o.id then { x with bill_created_at := some now }
              else x) },
          .ok { id := o.id, name := n2, price := o.price, status := o.status,
                created_at := o.created_at, bill_created_at := some now })) := by
  refine ⟨?_, ?_, ?_⟩
  · intro hr
    unfold bill_created
    rw [if_neg hr]
  · intro hr hfo
    unfold bill_created
    rw [if_pos hr, hfo]
  · intro o n2 hr hfo hn
    unfold bill_created
    rw [if_pos hr]
    simp [hfo, orderName_set_orders, hn]

/-- Witness for C8 at a concrete store: the sample order's bill
timestamp is already set to 55, and billing again at time 99 overwrites
it unconditionally. -/
theorem createBill_unconditional_overwrite_witness :
    oW1.bill_created_at = some 55 ∧
    (("cashier" ∉ (["accountant", "cashier"] : List String) →
       bill_created "cashier" 5 99 dbW1 = (dbW1, .error .forbidden)) ∧
    ("cashier" ∈ (["accountant", "cashier"] : List String) →
       findOrderById dbW1 5 = none →
       bill_created "cashier" 5 99 dbW1 = (dbW1, .error .notFound)) ∧
    (∀ o n2, "cashier" ∈ (["accountant", "cashier"] : List String) →
       findOrderById dbW1 5 = some o → orderName dbW1 o = some n2 →
       bill_created "cashier" 5 99 dbW1 =
         ({ dbW1 with orders := dbW1.orders.map (fun x =>
              if x.id == o.id then { x with bill_created_at := some 99 }
              else x) },
          .ok { id := o.id, name := n2, price := o.price, status := o.status,
                created_at := o.created_at, bill_created_at := some 99 }))) :=
  ⟨by decide, createBill_unconditional_overwrite "cashier" 5 99 dbW1⟩

/-- C9: `update_order` consults no role at all — its result is the same
for any two caller roles; a missing order fails with `NotFound`, an
absent or empty new status (checked only after the order is found)
fails with `InvalidRequest`, both without touching the store; and any
non-empty free-form status string is stored unconditionally, whatever
the prior status was (the update never reads it). -/
theorem updateStatus_open_policy (role1 role2 : String) (oid : Nat)
    (st? : Option String) (db : DB) :
    update_order role1 oid st? db = update_order role2 oid st? db ∧
    (findOrderById db oid = none →
       update_order role1 oid st? db = (db, .error .notFound)) ∧
    (∀ o, findOrderById db oid = some o → (st? = none ∨ st? = some "") →
       update_order role1 oid st? db = (db, .error .invalidRequest)) ∧
    (∀ o s, findOrderById db oid = some o → st? = some s → s ≠ "" →
       update_order role1 oid st? db =
         ({ db with orders := db.orders.map (fun x =>
              if x.id == o.id then { x with status := s } else x) },
          .ok { id := o.id, product_id := o.product_id,
                product_name := o.product_name, price := o.price,
                status := s, created_at := o.created_at })) := by
  refine ⟨rfl, ?_, ?_, ?_⟩
  · intro hfo
    unfold update_order
    rw [hfo]
  · rintro o hfo (rfl | rfl)
    · unfold update_order; rw [hfo]
    · unfold update_order; rw [hfo]; simp
  · rintro o s hfo rfl hs
    unfold update_order
    rw [hfo]
    simp [hs]

/-- Witness for C9 at a concrete store: an arbitrary unauthorized-
looking role and the accountant role get identical results, and
`"shipped"` is persisted over the prior `"received"`. -/
theorem updateStatus_open_policy_witness :
    (update_order "nobody" 5 (some "shipped") dbW1 =
       update_order "accountant" 5 (some "shipped") dbW1 ∧
    (findOrderById dbW1 5 = none →
       update_order "nobody" 5 (some "shipped") dbW1 =
         (dbW1, .error .notFound)) ∧
    (∀ o, findOrderById dbW1 5 = some o →
       ((some "shipped" : Option String) = none ∨
        (some "shipped" : Option String) = some "") →
       update_order "nobody" 5 (some "shipped") dbW1 =
         (dbW1, .error .invalidRequest)) ∧
    (∀ o s, findOrderById dbW1 5 = some o →
       (some "shipped" : Option String) = some s → s ≠ "" →
       update_order "nobody" 5 (some "shipped") dbW1 =
         ({ dbW1 with orders := dbW1.orders.map (fun x =>
              if x.id == o.id then { x with status := s } else x) },
          .ok { id := o.id, product_id := o.product_id,
                product_name := o.product_name, price := o.price,
                status := s, created_at := o.created_at }))) :=
  updateStatus_open_policy "nobody" "accountant" 5 (some "shipped") dbW1

/-- C10: the `name` field in the results of `get_order`, `bill_created`
and `get_orders` is `Order.name`, resolved through the live product
relationship (`self.product.name`), so it reports the referenced
product's current name and never the order's stored `product_name`
snapshot column. -/
theorem order_name_resolved_live (roleG roleB : String) (oid now : Nat)
    (db : DB) (o : Order) (q : Product)
    (hg : roleG ∈ ["sales assistant", "accountant"])
    (hb : roleB ∈ ["accountant", "cashier"])
    (ho : findOrderById db oid = some o)
    (hq : findProductById db o.product_id = some q) :
    (∃ v, get_order roleG oid now db = .ok v ∧ v.id = o.id ∧
       v.name = q.name) ∧
    (∃ v, (bill_created roleB oid now db).2 = .ok v ∧ v.id = o.id ∧
       v.name = q.name) ∧
    (∀ views, get_orders "accountant" none none db = .ok views →
       ∀ v ∈ views, ∃ o2 ∈ db.orders, ∃ q2,
         findProductById db o2.product_id = some q2 ∧
         v.id = o2.id ∧ v.name = q2.name ∧ v.created_at = o2.created_at) := by
  have hn : orderName db o = some q.name := by rw [orderName, hq]; rfl
  refine ⟨?_, ?_, ?_⟩
  · unfold get_order
    rw [if_pos hg]
    simp only [ho, hn]
    split
    · exact ⟨_, rfl, rfl, rfl⟩
    · exact ⟨_, rfl, rfl, rfl⟩
  · unfold bill_created
    rw [if_pos hb]
    simp only [ho, orderName_set_orders, hn]
    exact ⟨_, rfl, rfl, rfl⟩
  · intro views hviews v hv
    have hrend : renderOrders db db.orders = some views := by
      unfold get_orders at hviews
      simp only [strTruthy] at hviews
      cases hr2 : renderOrders db db.orders with
      | none => rw [hr2] at hviews; simp at hviews
      | some vs =>
        rw [hr2] at hviews
        simp at hviews
        rw [hviews]
    obtain ⟨o2, ho2, hlv⟩ := renderOrders_mem db db.orders views hrend v hv
    rw [listViewOf] at hlv
    cases hon : orderName db o2 with
    | none => rw [hon] at hlv; cases hlv
    | some n2 =>
      rw [hon] at hlv
      simp only [Option.map_some', Option.some.injEq] at hlv
      rw [orderName] at hon
      cases hfq : findProductById db o2.product_id with
      | none => rw [hfq] at hon; cases hon
      | some q2 =>
        rw [hfq] at hon
        simp only [Option.map_some', Option.some.injEq] at hon
        subst hlv
        exact ⟨o2, ho2, q2, hfq, rfl, hon.symm, rfl⟩

/-- Witness for C10 at a concrete store whose snapshot name
(`"OldName"`) differs from the product's current name (`"Widget"`): all
three read paths report the live name. -/
theorem order_name_resolved_live_witness :
    pW1.name ≠ oW1.product_name ∧
    (("sales assistant" ∈ ["sales assistant", "accountant"]) ∧
     ("cashier" ∈ ["accountant", "cashier"]) ∧
     findOrderById dbW1 5 = some oW1 ∧
     findProductById dbW1 oW1.product_id = some pW1) ∧
    ((∃ v, get_order "sales assistant" 5 2000 dbW1 = .ok v ∧ v.id = oW1.id ∧
       v.name = pW1.name) ∧
    (∃ v, (bill_created "cashier" 5 2000 dbW1).2 = .ok v ∧ v.id = oW1.id ∧
       v.name = pW1.name) ∧
    (∀ views, get_orders "accountant" none none dbW1 = .ok views →
       ∀ v ∈ views, ∃ o2 ∈ dbW1.orders, ∃ q2,
         findProductById dbW1 o2.product_id = some q2 ∧
         v.id = o2.id ∧ v.name = q2.name ∧ v.created_at = o2.created_at)) :=
  ⟨by decide, ⟨by decide, by decide, by decide, by decide⟩,
   order_name_resolved_live "sales assistant" "cashier" 5 2000 dbW1 oW1 pW1
     (by decide) (by decide) (by decide) (by decide)⟩

end OrdersApp
